import Mathlib

/-!
Verification of the security-context and authorization engine of the
coap-ace-poc-firmware repository, as a shallow embedding in Lean 4.

The embedding follows the Rust sources:
  * `src/rs_configuration.rs` — `Permissions`, `ApplicationClaims`, the
    `TryFrom<&coset::cwt::ClaimsSet>` conversion;
  * `src/coap.rs` — `WithPermissions`, `UnauthorizedSeeAS`,
    `create_coap_handler`;
  * `src/coap_gatt.rs` — `Connection::write`.

External collaborators (libOSCORE, coap-gatt-utils, minicbor, the device
clock, the resource-server store of ace-oscore-helpers) are modelled at
their interface boundary as oracle parameters, exactly as the firmware
consumes them; the firmware's own control flow is translated branch by
branch.
-/

namespace CoapAcePoc

/-! ## CoAP constants (crate coap_numbers)

Codes are `(class << 5) | detail`; options are IANA numbers. -/

/-- CoAP 2.04 Changed. -/
def code.CHANGED : Nat := 68
/-- CoAP 4.00 Bad Request. -/
def code.BAD_REQUEST : Nat := 128
/-- CoAP 4.01 Unauthorized. -/
def code.UNAUTHORIZED : Nat := 129
/-- CoAP 5.00 Internal Server Error. -/
def code.INTERNAL_SERVER_ERROR : Nat := 160
/-- CoAP 5.03 Service Unavailable. -/
def code.SERVICE_UNAVAILABLE : Nat := 163
/-- CoAP option number Max-Age. -/
def option.MAX_AGE : Nat := 14
/-- CoAP option number OSCORE. -/
def option.OSCORE : Nat := 9
/-- CoAP option number Content-Format. -/
def option.CONTENT_FORMAT : Nat := 12

/-! ## Response message model

Response messages are built by the handler closures via `set_code`,
`add_option_uint`, and payload writes; a finished message is captured by
the code that was set, the (number, uint value) options added, and the
payload written. -/

/-- Payload contents of a response message. `hints` stands for the CBOR
encoding of AS Request Creation Hints (AS URI and audience) produced by
`rs.request_creation_hints().push_to_encoder(...)` in
`UnauthorizedSeeAS::build_response`; the encoder itself is an external
collaborator, so the payload is modelled by the data it serializes. -/
inductive Payload where
  | empty : Payload
  | hints (asUri : String) (audience : String) : Payload
  | raw (bytes : List Nat) : Payload
deriving DecidableEq, Repr

/-- A CoAP response message as built through the writable-message trait. -/
structure Message where
  code : Nat
  options : List (Nat × Nat)
  payload : Payload
deriving DecidableEq, Repr

/-- The constant message produced by `response.reset()` followed by
`response.set_code(coap_numbers::code::INTERNAL_SERVER_ERROR)`. -/
def iseMessage : Message :=
  { code := code.INTERNAL_SERVER_ERROR, options := [], payload := Payload.empty }

/-- The message produced by the 5.03 branch of `Connection::write`:
`set_code(SERVICE_UNAVAILABLE)` and `add_option_uint(MAX_AGE, 0u8)`. -/
def serviceUnavailableMessage : Message :=
  { code := code.SERVICE_UNAVAILABLE, options := [(option.MAX_AGE, 0)], payload := Payload.empty }

/-- The message produced by the context-not-found branch of
`Connection::write`: `set_code(UNAUTHORIZED)`, nothing else. -/
def unauthorizedMessage : Message :=
  { code := code.UNAUTHORIZED, options := [], payload := Payload.empty }

/-- The message produced when `liboscore::unprotect_request` fails:
`set_code(BAD_REQUEST)`, nothing else. -/
def badRequestMessage : Message :=
  { code := code.BAD_REQUEST, options := [], payload := Payload.empty }

/-! ## src/rs_configuration.rs — Permissions -/

/-- The pre-parsed AIF (struct `Permissions`): one `u8` REST-method-set per
known URI path. `u8` values are represented as `Nat` below 256. -/
structure Permissions where
  temp : Nat
  identify : Nat
  leds : Nat
deriving DecidableEq, Repr

/-- `Permissions::default()`: all bitmasks zero. -/
def Permissions.default : Permissions :=
  { temp := 0, identify := 0, leds := 0 }

/-- The `match path` arms in the body of the `Permissions::parse` loop:
a recognized path overwrites the corresponding field, any other path
leaves the accumulator unchanged. -/
def Permissions.applyEntry (p : Permissions) (e : String × Nat) : Permissions :=
  if e.1 = "/temp" then { p with temp := e.2 }
  else if e.1 = "/identify" then { p with identify := e.2 }
  else if e.1 = "/leds" then { p with leds := e.2 }
  else p

/-- Input to `Permissions::parse` as seen through the minicbor decoder,
which is an external collaborator (spec section 6, CBOR primitives):
`headerOk` is whether `decoder.array_iter::<(&str, u8)>()` itself
succeeds (the input starts with a CBOR array), and `items` is the stream
the iterator yields, each item either a decoded `(text, u8)` pair or
`none` for an item-level structural decode failure (truncated input,
wrong item type, integer out of `u8` range). -/
structure CborScope where
  headerOk : Bool
  items : List (Option (String × Nat))
deriving DecidableEq, Repr

/-- The `for item in ...` loop of `Permissions::parse`: the `item?`
propagates the first decode failure; a decoded pair is folded with
`Permissions.applyEntry`. -/
def Permissions.parseItems (p : Permissions) : List (Option (String × Nat)) → Option Permissions
  | [] => some p
  | none :: _ => none
  | some e :: rest => Permissions.parseItems (p.applyEntry e) rest

/-- `Permissions::parse`: iterate the decoded (path, perms) pairs over
`Permissions::default()`, failing exactly where the decoder fails. -/
def Permissions.parse (input : CborScope) : Option Permissions :=
  if input.headerOk then Permissions.parseItems Permissions.default input.items else none

/-! ## src/rs_configuration.rs — ApplicationClaims -/

/-- `ApplicationClaims`: the distilled claims the application evaluates,
scope plus `u32` expiry. -/
structure ApplicationClaims where
  scope : Permissions
  exp : Nat
deriving DecidableEq, Repr

/-- `ApplicationClaims::valid`: compares the expiry with
`crate::devicetime::unixtime()`; the device clock is an external input,
passed here as `now` (`none` models `Err(ClockNotSet)`). The token is
valid iff the clock is set and `exp >= now`. -/
def ApplicationClaims.valid (c : ApplicationClaims) (now : Option Nat) : Bool :=
  match now with
  | some n => decide (n ≤ c.exp)
  | none => false

/-- Timestamps of `coset::cwt::Timestamp` as used by the conversion: the
code only accepts `WholeSeconds`; any other form (fractional seconds)
falls into the wildcard arm. -/
inductive Timestamp where
  | wholeSeconds (n : Int) : Timestamp
  | fractionalSeconds : Timestamp
deriving DecidableEq, Repr

/-- Keys of the `rest` map of a `coset::cwt::ClaimsSet` as matched by the
conversion: the assigned Scope claim name, or anything else. -/
inductive CwtKey where
  | scopeKey : CwtKey
  | otherKey (tag : Nat) : CwtKey
deriving DecidableEq, Repr

/-- Values of the `rest` map as matched by the conversion: a CBOR byte
string (whose contents reach `Permissions::parse` and are therefore kept
in the decoder-level `CborScope` form), or anything else. -/
inductive CwtValue where
  | bytes (s : CborScope) : CwtValue
  | otherValue : CwtValue
deriving DecidableEq, Repr

/-- A `coset::cwt::ClaimsSet` restricted to the fields the conversion
reads: `expiration_time` and the `rest` key/value list. -/
structure ClaimsSet where
  expirationTime : Option Timestamp
  rest : List (CwtKey × CwtValue)
deriving DecidableEq, Repr

/-- `u32::try_from(n: i64).ok()`: succeeds exactly on values in
`[0, 2^32)`. -/
def u32TryFromInt (n : Int) : Option Nat :=
  if 0 ≤ n ∧ n < 2 ^ 32 then some n.toNat else none

/-- The `exp` extraction of the conversion: whole seconds convertible into
`u32`, anything else (absent, fractional, out of range) yields `none`. -/
def ClaimsSet.expOf (claims : ClaimsSet) : Option Nat :=
  match claims.expirationTime with
  | some (Timestamp.wholeSeconds n) => u32TryFromInt n
  | _ => none

/-- The `for (key, value) in claims.rest.iter()` loop of the conversion:
a Scope key carrying a byte string has its contents parsed (failure
rejects the token), and `scope.replace(new).is_some()` rejects a second
such claim; every other entry is skipped. `Except.error ()` models
`Err(UnrecognizedCredentials)`. -/
def scanScopeClaims : List (CwtKey × CwtValue) → Option Permissions →
    Except Unit (Option Permissions)
  | [], acc => Except.ok acc
  | (CwtKey.scopeKey, CwtValue.bytes s) :: rest, acc =>
    match Permissions.parse s with
    | none => Except.error ()
    | some newScope =>
      match acc with
      | some _ => Except.error ()
      | none => scanScopeClaims rest (some newScope)
  | _ :: rest, acc => scanScopeClaims rest acc

/-- `TryFrom<&coset::cwt::ClaimsSet> for ApplicationClaims`: extract
`exp`, scan for a single parsable scope claim, require both, and finally
require `valid()` against the device clock `now`. -/
def ApplicationClaims.tryFrom (now : Option Nat) (claims : ClaimsSet) :
    Except Unit ApplicationClaims :=
  match scanScopeClaims claims.rest none with
  | Except.error _ => Except.error ()
  | Except.ok scopeOpt =>
    match scopeOpt with
    | none => Except.error ()
    | some scope =>
      match claims.expOf with
      | none => Except.error ()
      | some exp =>
        if (ApplicationClaims.mk scope exp).valid now then
          Except.ok (ApplicationClaims.mk scope exp)
        else Except.error ()

/-! ## src/coap.rs — WithPermissions, UnauthorizedSeeAS, create_coap_handler -/

/-- `1u8.checked_shl(n)`: `none` when the shift amount reaches the bit
width of `u8`, otherwise the shifted value. -/
def u8CheckedShl1 (n : Nat) : Option Nat :=
  if n < 8 then some (2 ^ n) else none

/-- The method bit computed by `WithPermissions::extract_request_data`:
`1u8.checked_shl((codenumber - 1u8).into())`, with the `u8` subtraction
wrapping (release semantics). -/
def methodBit (codenumber : Nat) : Option Nat :=
  u8CheckedShl1 ((codenumber + 255) % 256)

/-- The permission test of `WithPermissions::extract_request_data`:
`codebit.map(|bit| bit & self.permissions != 0) == Some(true)`. -/
def permissionAllows (permissions codenumber : Nat) : Bool :=
  match methodBit codenumber with
  | some bit => decide (Nat.land bit permissions ≠ 0)
  | none => false

namespace WithPermissions

/-- `WithPermissions::extract_request_data`: forward to the inner
handler's extraction exactly when the method bit is set in the stored
permissions; `none` request data indicates insufficient permissions.
The inner extraction result is abstract (`x`). -/
def extract_request_data {α : Type} (permissions codenumber : Nat) (x : α) : Option α :=
  if permissionAllows permissions codenumber then some x else none

end WithPermissions

/-- AS Request Creation Hints configuration held by the resource server
(`rs.request_creation_hints()`): the AS URI and the audience. -/
structure RequestCreationHints where
  asUri : String
  audience : String
deriving DecidableEq, Repr

/-- `UnauthorizedSeeAS::build_response`: with the resource server lock
available (`some rqh`), build 4.01 Unauthorized with Content-Format 19
(application/ace+cbor) and the encoded request-creation-hints payload;
with the lock unavailable, fail with `Error::service_unavailable()`
(`Except.error ()`). -/
def UnauthorizedSeeAS.build_response (lock : Option RequestCreationHints) :
    Except Unit Message :=
  match lock with
  | some rqh =>
    Except.ok
      { code := code.UNAUTHORIZED,
        options := [(option.CONTENT_FORMAT, 19)],
        payload := Payload.hints rqh.asUri rqh.audience }
  | none => Except.error ()

/-- `WithPermissions::build_response`: inner handler on extracted data,
render of the inner extraction error, or the `UnauthorizedSeeAS` error
handler when permission was refused (`data = none`). The three error
types of the source are collapsed to `Unit`, which the claims do not
distinguish. -/
def WithPermissions.build_response {δ ε : Type}
    (lock : Option RequestCreationHints)
    (innerBuild : δ → Except Unit Message)
    (renderErr : ε → Except Unit Message)
    (data : Option (Except ε δ)) : Except Unit Message :=
  match data with
  | some (Except.ok d) => innerBuild d
  | some (Except.error e) => renderErr e
  | none => UnauthorizedSeeAS.build_response lock

/-- The permission masks given to the three `WithPermissions` wrappers in
`create_coap_handler` (`/identify`, `/temp`, `/leds`). -/
structure GuardedHandlers where
  identifyPerm : Nat
  tempPerm : Nat
  ledsPerm : Nat
deriving DecidableEq, Repr

/-- `create_coap_handler`, restricted to the permission wiring: each
guarded handler gets `claims.map(|c| c.scope.<path>).unwrap_or(0)`. -/
def create_coap_handler (claims : Option ApplicationClaims) : GuardedHandlers :=
  { identifyPerm := (claims.map fun c => c.scope.identify).getD 0,
    tempPerm := (claims.map fun c => c.scope.temp).getD 0,
    ledsPerm := (claims.map fun c => c.scope.leds).getD 0 }

/-! ## src/coap_gatt.rs — Connection::write -/

/-- A parsed CoAP-over-GATT request as `Connection::write` reads it:
only the option list (number, value bytes) is inspected directly; the
rest of the request flows into the oracles. -/
structure Request where
  options : List (Nat × List Nat)
deriving DecidableEq, Repr

/-- A response of `Connection::write` as returned over GATT: either the
result of a successful `liboscore::protect_response` over the given
plaintext message, or a plain (unprotected) CoAP message. -/
inductive GattResponse where
  | oscoreProtected (plain : Message) : GattResponse
  | plain (m : Message) : GattResponse
deriving DecidableEq, Repr

/-- Observable effects of `Connection::write` on shared security state:
reading the context store (`rs.look_up_context`), running
`liboscore::unprotect_request` (replay-window update), and running
`liboscore::protect_response` (sequence-number consumption). -/
inductive Effect where
  | lookUpCtx : Effect
  | unprotectCall : Effect
  | protectCall : Effect
deriving DecidableEq, Repr

/-- Oracles for the external collaborators consumed by
`Connection::write`, fixed for the single call being modelled:
`parseMut` is `coap_gatt_utils::parse_mut`; `oscoreParse` is
`liboscore::OscoreOption::parse` on the copied option value; `tryLock`
is `self.rs.try_lock().ok().is_some()`; `lookUp` is
`rs.look_up_context(&oscore_option)` (context handle abstracted to a
`Nat` token); `now` is the device clock read inside
`ApplicationClaims::valid`; `unprotectResult` is the outcome of
`liboscore::unprotect_request` (`none` = unprotect failed, `some e` =
success with `e` the closure's `handler.extract_request_data` result);
`protectOk i` is whether the i-th `liboscore::protect_response` call of
this response succeeds (it fails e.g. on sequence-number exhaustion);
`buildResponse` / `renderBuildErr` / `renderExtractErr` are the
handler's `build_response` and the `render` calls on its errors inside
the protected branch; the `u`-prefixed fields are the same three for the
unprotected branch. Error payloads are abstracted to `Nat` tokens. -/
structure WriteEnv where
  parseMut : List Nat → Option Request
  oscoreParse : List Nat → Option Nat
  tryLock : Bool
  lookUp : Option (Nat × ApplicationClaims)
  now : Option Nat
  unprotectResult : Option (Except Unit Unit)
  protectOk : Nat → Bool
  buildResponse : Except Nat Message
  renderBuildErr : Nat → Except Unit Message
  renderExtractErr : Except Unit Message
  uExtract : Except Unit Unit
  uBuild : Except Nat Message
  uRenderBuildErr : Nat → Except Unit Message
  uRenderExtractErr : Except Unit Message

/-- The OSCORE-option scan of `Connection::write` (lines 77-99): the loop
breaks at the first option with number `OSCORE`; its value is copied
into a 16-byte buffer (longer values are dropped with an error log) and
then handed to `liboscore::OscoreOption::parse`, any failure leaving the
request to be treated as unprotected. -/
def oscoreOptionOf (oscoreParse : List Nat → Option Nat) (req : Request) : Option Nat :=
  match (req.options.find? fun o => decide (o.1 = option.OSCORE)).map Prod.snd with
  | some v => if v.length ≤ 16 then oscoreParse v else none
  | none => none

/-- The unprotected branch of `Connection::write` (lines 101-131):
extraction result, then `build_response`, falling back to rendering the
error and finally to a bare 5.00. -/
def unprotectedPathResponse (env : WriteEnv) : Message :=
  match env.uExtract with
  | Except.ok _ =>
    match env.uBuild with
    | Except.ok m => m
    | Except.error e =>
      match env.uRenderBuildErr e with
      | Except.ok m => m
      | Except.error _ => iseMessage
  | Except.error _ =>
    match env.uRenderExtractErr with
    | Except.ok m => m
    | Except.error _ => iseMessage

/-- One `liboscore::protect_response` call: `ok` is whether the OSCORE
protect machinery itself succeeds for this call; the closure writes the
plaintext (or fails), and its result is passed through, so the overall
result mirrors the source's `Result<Result<_, E>, ProtectError>`. -/
def protect_response {ε : Type} (ok : Bool) (closure : Except ε Message) :
    Except Unit (Except ε GattResponse) :=
  if ok then Except.ok (closure.map GattResponse.oscoreProtected) else Except.error ()

/-- The protected-response construction of `Connection::write` (lines
187-284): every branch attempts `protect_response`; a closure-level
failure is retried with the rendered error and finally with a constant
5.00 plaintext; a protect-level failure falls through to the final
`if protected.is_err()` block, which resets the response and emits a
plain 5.00. Returns the response together with the number of protect
calls made. -/
def protectedDance (env : WriteEnv) (extracted : Except Unit Unit) :
    GattResponse × Nat :=
  match extracted with
  | Except.ok _ =>
    match protect_response (env.protectOk 0) env.buildResponse with
    | Except.error _ => (GattResponse.plain iseMessage, 1)
    | Except.ok (Except.ok r) => (r, 1)
    | Except.ok (Except.error e) =>
      match protect_response (env.protectOk 1) (env.renderBuildErr e) with
      | Except.error _ => (GattResponse.plain iseMessage, 2)
      | Except.ok (Except.ok r) => (r, 2)
      | Except.ok (Except.error _) =>
        match protect_response (env.protectOk 2) (Except.ok iseMessage : Except Empty Message) with
        | Except.error _ => (GattResponse.plain iseMessage, 3)
        | Except.ok (Except.ok r) => (r, 3)
        | Except.ok (Except.error e) => e.elim
  | Except.error _ =>
    match protect_response (env.protectOk 0) env.renderExtractErr with
    | Except.error _ => (GattResponse.plain iseMessage, 1)
    | Except.ok (Except.ok r) => (r, 1)
    | Except.ok (Except.error _) =>
      match protect_response (env.protectOk 1) (Except.ok iseMessage : Except Empty Message) with
      | Except.error _ => (GattResponse.plain iseMessage, 2)
      | Except.ok (Except.ok r) => (r, 2)
      | Except.ok (Except.error e) => e.elim

/-- `Connection::write` (lines 71-285). The result is `none` when the
call panics: the source's first step is
`coap_gatt_utils::parse_mut(written).unwrap()`, so a buffer the parser
rejects aborts instead of producing a response. On the non-panicking
paths the result carries the GATT response and the trace of effects on
shared security state, in order. The two `.expect(...)` calls of the
source (`add_option_uint` on the always-capable backend, and the
conversion between equally-sized heapless vectors) are infallible by
their stated backend guarantees and are modelled as successes. -/
def connectionWrite (env : WriteEnv) (written : List Nat) :
    Option (GattResponse × List Effect) :=
  match env.parseMut written with
  | none => none
  | some req =>
    match oscoreOptionOf env.oscoreParse req with
    | none => some (GattResponse.plain (unprotectedPathResponse env), [])
    | some _ =>
      if env.tryLock then
        let cac := env.lookUp
        let cac := if cac.map (fun p => p.2.valid env.now) = some false then none else cac
        match cac with
        | none => some (GattResponse.plain unauthorizedMessage, [Effect.lookUpCtx])
        | some _ =>
          match env.unprotectResult with
          | none =>
            some (GattResponse.plain badRequestMessage, [Effect.lookUpCtx, Effect.unprotectCall])
          | some extracted =>
            let (resp, pcount) := protectedDance env extracted
            some (resp, [Effect.lookUpCtx, Effect.unprotectCall] ++
              List.replicate pcount Effect.protectCall)
      else
        some (GattResponse.plain serviceUnavailableMessage, [])

/-! ## Concrete environments for witnesses -/

/-- A benign concrete oracle environment: a fixed request carrying an
OSCORE option, parses and locks succeeding, all protect calls
succeeding. Witness environments below adjust individual fields. -/
def envBase : WriteEnv :=
  { parseMut := fun _ => some { options := [(option.OSCORE, [1])] },
    oscoreParse := fun _ => some 0,
    tryLock := true,
    lookUp := none,
    now := none,
    unprotectResult := none,
    protectOk := fun _ => true,
    buildResponse := Except.ok { code := code.CHANGED, options := [], payload := Payload.empty },
    renderBuildErr := fun _ => Except.ok iseMessage,
    renderExtractErr := Except.ok iseMessage,
    uExtract := Except.ok (),
    uBuild := Except.ok { code := code.CHANGED, options := [], payload := Payload.empty },
    uRenderBuildErr := fun _ => Except.ok iseMessage,
    uRenderExtractErr := Except.ok iseMessage }

/-! ## Claims about Connection::write: C2, C3, C4 -/

/-- C2, code-bug evidence: for a written buffer that
`coap_gatt_utils::parse_mut` rejects, `Connection::write` does not
return a response at all — the source calls `.unwrap()` on the parse
result (src/coap_gatt.rs line 72) and panics, modelled as `none`. The
claim says every parse failure on the raw request is converted into an
error response; the code contradicts it. -/
theorem claim_C2_unparsable_write_panics (env : WriteEnv) (written : List Nat)
    (hparse : env.parseMut written = none) :
    connectionWrite env written = none := by
  simp [connectionWrite, hparse]

/-- Witness for C2 at a concrete environment whose parser rejects the
buffer. -/
theorem claim_C2_unparsable_write_panics_witness :
    connectionWrite { envBase with parseMut := fun _ => none } [0] = none :=
  claim_C2_unparsable_write_panics { envBase with parseMut := fun _ => none } [0] rfl

/-- C3: a protected request (OSCORE option present and parsed) arriving
while `self.rs.try_lock()` fails is answered with 5.03 Service
Unavailable carrying Max-Age 0, and the effect trace is empty: no
context store read, no unprotect, no protect — no context state is read
or mutated. -/
theorem claim_C3_locked_store_yields_503 (env : WriteEnv) (written : List Nat) (req : Request)
    (hparse : env.parseMut written = some req)
    (hosc : (oscoreOptionOf env.oscoreParse req).isSome = true)
    (hlock : env.tryLock = false) :
    connectionWrite env written = some (GattResponse.plain serviceUnavailableMessage, []) ∧
    serviceUnavailableMessage.code = code.SERVICE_UNAVAILABLE ∧
    serviceUnavailableMessage.options = [(option.MAX_AGE, 0)] := by
  obtain ⟨o, ho⟩ := Option.isSome_iff_exists.mp hosc
  exact ⟨by simp [connectionWrite, hparse, ho, hlock], rfl, rfl⟩

/-- Witness for C3 at a concrete environment with the lock unavailable. -/
theorem claim_C3_locked_store_yields_503_witness :
    connectionWrite { envBase with tryLock := false } [0] =
      some (GattResponse.plain serviceUnavailableMessage, []) :=
  (claim_C3_locked_store_yields_503 { envBase with tryLock := false } [0]
    { options := [(option.OSCORE, [1])] } rfl rfl rfl).1

/-- C4: a protected request citing a KID whose stored context exists but
whose claims have expired (device clock `now` strictly past `exp`) is
answered 4.01 Unauthorized; the only effect is the store lookup (no
removal, no unprotect, no protect), and the outcome is identical to the
same write against an environment in which the KID was never
provisioned (`lookUp = none`). -/
theorem claim_C4_expired_context_treated_absent (env : WriteEnv) (written : List Nat)
    (req : Request) (ctx n : Nat) (ac : ApplicationClaims)
    (hparse : env.parseMut written = some req)
    (hosc : (oscoreOptionOf env.oscoreParse req).isSome = true)
    (hlock : env.tryLock = true)
    (hfound : env.lookUp = some (ctx, ac))
    (hnow : env.now = some n)
    (hexp : ac.exp < n) :
    connectionWrite env written =
      some (GattResponse.plain unauthorizedMessage, [Effect.lookUpCtx]) ∧
    connectionWrite env written = connectionWrite { env with lookUp := none } written := by
  obtain ⟨o, ho⟩ := Option.isSome_iff_exists.mp hosc
  have hvalid : ac.valid env.now = false := by
    simp only [ApplicationClaims.valid, hnow, decide_eq_false_iff_not]
    omega
  constructor
  · simp [connectionWrite, hparse, ho, hlock, hfound, hvalid]
  · simp [connectionWrite, hparse, ho, hlock, hfound, hvalid]

/-- Witness for C4 at a concrete environment holding a context that
expired 5 seconds before the device clock's current time. -/
theorem claim_C4_expired_context_treated_absent_witness :
    connectionWrite
        { envBase with lookUp := some (0, { scope := Permissions.default, exp := 5 }),
                       now := some 10 } [0] =
      some (GattResponse.plain unauthorizedMessage, [Effect.lookUpCtx]) :=
  (claim_C4_expired_context_treated_absent
    { envBase with lookUp := some (0, { scope := Permissions.default, exp := 5 }),
                   now := some 10 }
    [0] { options := [(option.OSCORE, [1])] } 0 10
    { scope := Permissions.default, exp := 5 }
    rfl rfl rfl rfl rfl (by decide)).1

/-! ## Claim C1: protection of every reply path -/

/-- Case analysis of the protected-response construction: at least one
protect call is always made, and the result is an OSCORE-protected
message unless some protect call itself failed, in which case it is the
constant reset 5.00 message. -/
theorem protectedDance_cases (env : WriteEnv) (extracted : Except Unit Unit) :
    1 ≤ (protectedDance env extracted).2 ∧
    ((∃ plain, (protectedDance env extracted).1 = GattResponse.oscoreProtected plain) ∨
      ((protectedDance env extracted).1 = GattResponse.plain iseMessage ∧
        ∃ i, env.protectOk i = false)) := by
  cases extracted with
  | ok u =>
    cases h0 : env.protectOk 0 with
    | false =>
      refine ⟨?_, Or.inr ⟨?_, 0, h0⟩⟩ <;> simp [protectedDance, protect_response, Except.map, h0]
    | true =>
      cases hb : env.buildResponse with
      | ok m =>
        refine ⟨?_, Or.inl ⟨m, ?_⟩⟩ <;> simp [protectedDance, protect_response, Except.map, h0, hb]
      | error e =>
        cases h1 : env.protectOk 1 with
        | false =>
          refine ⟨?_, Or.inr ⟨?_, 1, h1⟩⟩ <;>
            simp [protectedDance, protect_response, Except.map, h0, hb, h1]
        | true =>
          cases hr : env.renderBuildErr e with
          | ok m =>
            refine ⟨?_, Or.inl ⟨m, ?_⟩⟩ <;>
              simp [protectedDance, protect_response, Except.map, h0, hb, h1, hr]
          | error e2 =>
            cases h2 : env.protectOk 2 with
            | false =>
              refine ⟨?_, Or.inr ⟨?_, 2, h2⟩⟩ <;>
                simp [protectedDance, protect_response, Except.map, h0, hb, h1, hr, h2]
            | true =>
              refine ⟨?_, Or.inl ⟨iseMessage, ?_⟩⟩ <;>
                simp [protectedDance, protect_response, Except.map, h0, hb, h1, hr, h2]
  | error u =>
    cases h0 : env.protectOk 0 with
    | false =>
      refine ⟨?_, Or.inr ⟨?_, 0, h0⟩⟩ <;> simp [protectedDance, protect_response, Except.map, h0]
    | true =>
      cases hr : env.renderExtractErr with
      | ok m =>
        refine ⟨?_, Or.inl ⟨m, ?_⟩⟩ <;> simp [protectedDance, protect_response, Except.map, h0, hr]
      | error e2 =>
        cases h1 : env.protectOk 1 with
        | false =>
          refine ⟨?_, Or.inr ⟨?_, 1, h1⟩⟩ <;>
            simp [protectedDance, protect_response, Except.map, h0, hr, h1]
        | true =>
          refine ⟨?_, Or.inl ⟨iseMessage, ?_⟩⟩ <;>
            simp [protectedDance, protect_response, Except.map, h0, hr, h1]

/-- C1 (amended): once a security context was identified (lookup
succeeded with valid claims) and the request was successfully
unprotected, every reply path of `Connection::write` — resource handler
success, permission rejection (both arrive through
`handler.build_response`), extraction error rendering, and internal
render failures — attempts the OSCORE protect step (the effect trace
contains a protect call), and the returned response is OSCORE-protected
unless some `liboscore::protect_response` call itself failed, in which
case it is the constant reset 5.00 message carrying no request- or
handler-derived data; in particular, when every protect call succeeds
the response is always protected. -/
theorem claim_C1_established_context_replies_protected
    (env : WriteEnv) (written : List Nat) (req : Request) (extracted : Except Unit Unit)
    (hparse : env.parseMut written = some req)
    (hosc : (oscoreOptionOf env.oscoreParse req).isSome = true)
    (hlock : env.tryLock = true)
    (hvalid : (env.lookUp.map fun p => p.2.valid env.now) = some true)
    (hunp : env.unprotectResult = some extracted) :
    ∃ (r : GattResponse) (effs : List Effect),
      connectionWrite env written = some (r, effs) ∧
      Effect.protectCall ∈ effs ∧
      ((∃ plain, r = GattResponse.oscoreProtected plain) ∨
        (r = GattResponse.plain iseMessage ∧ ∃ i, env.protectOk i = false)) ∧
      ((∀ i, env.protectOk i = true) →
        ∃ plain, r = GattResponse.oscoreProtected plain) := by
  obtain ⟨o, ho⟩ := Option.isSome_iff_exists.mp hosc
  obtain ⟨p, hp⟩ := Option.map_eq_some'.mp hvalid
  obtain ⟨hpl, hpv⟩ := hp
  refine ⟨(protectedDance env extracted).1,
    [Effect.lookUpCtx, Effect.unprotectCall] ++
      List.replicate (protectedDance env extracted).2 Effect.protectCall, ?_, ?_, ?_, ?_⟩
  · simp [connectionWrite, hparse, ho, hlock, hpl, hpv, hunp]
  · have h1 := (protectedDance_cases env extracted).1
    simp only [List.mem_append, List.mem_replicate]
    exact Or.inr ⟨by omega, trivial⟩
  · exact (protectedDance_cases env extracted).2
  · intro hall
    rcases (protectedDance_cases env extracted).2 with h | h
    · exact h
    · rcases h.2 with ⟨i, hi⟩
      rw [hall i] at hi
      exact absurd hi (by simp)

/-- Witness for C1 (amended) at a concrete environment with a valid
context, successful unprotect, and all protect calls succeeding. -/
theorem claim_C1_established_context_replies_protected_witness :
    ∃ (r : GattResponse) (effs : List Effect),
      connectionWrite
          { envBase with lookUp := some (0, { scope := Permissions.default, exp := 100 }),
                         now := some 50, unprotectResult := some (Except.ok ()) } [0] =
        some (r, effs) ∧
      Effect.protectCall ∈ effs ∧
      ((∃ plain, r = GattResponse.oscoreProtected plain) ∨
        (r = GattResponse.plain iseMessage ∧
          ∃ i, ({ envBase with
                    lookUp := some (0, { scope := Permissions.default, exp := 100 }),
                    now := some 50,
                    unprotectResult := some (Except.ok ()) } : WriteEnv).protectOk i = false)) ∧
      ((∀ i, ({ envBase with
                  lookUp := some (0, { scope := Permissions.default, exp := 100 }),
                  now := some 50,
                  unprotectResult := some (Except.ok ()) } : WriteEnv).protectOk i = true) →
        ∃ plain, r = GattResponse.oscoreProtected plain) :=
  claim_C1_established_context_replies_protected
    { envBase with lookUp := some (0, { scope := Permissions.default, exp := 100 }),
                   now := some 50, unprotectResult := some (Except.ok ()) }
    [0] { options := [(option.OSCORE, [1])] } (Except.ok ())
    rfl rfl rfl rfl rfl

/-- Counterexample to C1 as stated: a concrete write in which the context
was identified and the request successfully unprotected, yet the
returned response is unprotected — the protect step itself fails (as on
sequence-number exhaustion) and `Connection::write` falls back to the
plain reset 5.00 message (src/coap_gatt.rs lines 276-283). -/
theorem claim_C1_counterexample :
    connectionWrite
        { envBase with lookUp := some (0, { scope := Permissions.default, exp := 100 }),
                       now := some 50, unprotectResult := some (Except.ok ()),
                       protectOk := fun _ => false } [0] =
      some (GattResponse.plain iseMessage,
        [Effect.lookUpCtx, Effect.unprotectCall, Effect.protectCall]) ∧
    ¬ ∃ plain, GattResponse.plain iseMessage = GattResponse.oscoreProtected plain := by
  constructor
  · rfl
  · rintro ⟨plain, h⟩
    exact GattResponse.noConfusion h

/-! ## Claims C6 and C7: the Permission Model -/

/-- The parse loop fails exactly where the decoder item stream fails. -/
theorem Permissions.parseItems_eq_none_iff (p : Permissions)
    (items : List (Option (String × Nat))) :
    Permissions.parseItems p items = none ↔ none ∈ items := by
  induction items generalizing p with
  | nil => simp [Permissions.parseItems]
  | cons hd tl ih =>
    cases hd with
    | none => simp [Permissions.parseItems]
    | some e => simp [Permissions.parseItems, ih]

/-- On a stream of successfully decoded entries the parse loop is a fold
of `Permissions.applyEntry`. -/
theorem Permissions.parseItems_map_some (p : Permissions) (entries : List (String × Nat)) :
    Permissions.parseItems p (entries.map some) =
      some (entries.foldl Permissions.applyEntry p) := by
  induction entries generalizing p with
  | nil => simp [Permissions.parseItems]
  | cons hd tl ih => simp [Permissions.parseItems, ih]

/-- C6: `Permissions::parse` fails exactly on structurally malformed
input — a failing array header or a failing item in the decoder's
stream — and never because of the entries' contents: every well-formed
stream of (text-path, integer-bitmask) entries yields `Ok` (the fold of
the match arms over the default), an entry with an unrecognized path
leaves the accumulator unchanged, and a later entry for a path
overwrites what an earlier entry for the same path set. -/
theorem claim_C6_parse_fails_only_structurally :
    (∀ (hdr : Bool) (items : List (Option (String × Nat))),
      Permissions.parse { headerOk := hdr, items := items } = none ↔
        hdr = false ∨ none ∈ items) ∧
    (∀ entries : List (String × Nat),
      Permissions.parse { headerOk := true, items := entries.map some } =
        some (entries.foldl Permissions.applyEntry Permissions.default)) ∧
    (∀ (p : Permissions) (path : String) (v : Nat),
      path ≠ "/temp" → path ≠ "/identify" → path ≠ "/leds" →
      Permissions.applyEntry p (path, v) = p) ∧
    (∀ (p : Permissions) (path : String) (a b : Nat),
      Permissions.applyEntry (Permissions.applyEntry p (path, a)) (path, b) =
        Permissions.applyEntry p (path, b)) := by
  refine ⟨?_, ?_, ?_, ?_⟩
  · intro hdr items
    cases hdr <;> simp [Permissions.parse, Permissions.parseItems_eq_none_iff]
  · intro entries
    simp [Permissions.parse, Permissions.parseItems_map_some]
  · intro p path v h1 h2 h3
    simp [Permissions.applyEntry, h1, h2, h3]
  · intro p path a b
    by_cases h1 : path = "/temp"
    · simp [Permissions.applyEntry, h1]
    · by_cases h2 : path = "/identify"
      · simp [Permissions.applyEntry, h1, h2]
      · by_cases h3 : path = "/leds"
        · simp [Permissions.applyEntry, h1, h2, h3]
        · simp [Permissions.applyEntry, h1, h2, h3]

/-- Witness for C6: an unrecognized path is silently ignored. -/
theorem claim_C6_parse_fails_only_structurally_witness :
    Permissions.applyEntry Permissions.default ("/unknown", 7) = Permissions.default :=
  claim_C6_parse_fails_only_structurally.2.2.1 Permissions.default "/unknown" 7
    (by decide) (by decide) (by decide)

/-- With permission mask 0 the method-bit test never fires: either the
checked shift fails or the conjunction with 0 is 0. -/
theorem permissionAllows_zero (c : Nat) : permissionAllows 0 c = false := by
  unfold permissionAllows
  cases h : methodBit c with
  | none => rfl
  | some bit =>
    have hz : Nat.land bit 0 = 0 := Nat.and_zero bit
    simp [hz]

/-- C7: a resource path absent from the Permission Model carries bitmask
0 and no operation on it is ever allowed: with no claims,
`create_coap_handler` builds every guarded handler with mask 0; the
permission test with mask 0 is false for every request code; and
`WithPermissions::extract_request_data` forwards to the inner handler
exactly when the method bit of the request code is set in the mask,
returning the denial marker `none` otherwise. -/
theorem claim_C7_absent_entry_denies_all :
    create_coap_handler none = { identifyPerm := 0, tempPerm := 0, ledsPerm := 0 } ∧
    (∀ c : Nat, permissionAllows 0 c = false) ∧
    (∀ (α : Type) (p c : Nat) (x : α),
      WithPermissions.extract_request_data p c x =
        if permissionAllows p c then some x else none) ∧
    (∀ (α : Type) (c : Nat) (x : α),
      WithPermissions.extract_request_data 0 c x = none) := by
  refine ⟨rfl, permissionAllows_zero, fun α p c x => rfl, ?_⟩
  intro α c x
  simp [WithPermissions.extract_request_data, permissionAllows_zero]

/-! ## Claim C10: the checked shift on large request codes -/

/-- C10: for request code numbers 9..255 the checked shift
`1u8.checked_shl(codenumber - 1)` returns `None`, and
`WithPermissions::extract_request_data` denies the request (returns the
no-permission marker) for every permission mask, instead of panicking or
granting access. -/
theorem claim_C10_large_code_denied {α : Type} (permissions c : Nat) (x : α)
    (h9 : 9 ≤ c) (h255 : c ≤ 255) :
    methodBit c = none ∧
    WithPermissions.extract_request_data permissions c x = none := by
  have hmod : (c + 255) % 256 = c - 1 := by omega
  have hbit : methodBit c = none := by
    unfold methodBit u8CheckedShl1
    rw [hmod, if_neg (by omega)]
  refine ⟨hbit, ?_⟩
  simp [WithPermissions.extract_request_data, permissionAllows, hbit]

/-- Witness for C10 at code 9 (first code past the 8 method bits) with a
fully permissive mask. -/
theorem claim_C10_large_code_denied_witness :
    methodBit 9 = none ∧
    WithPermissions.extract_request_data 255 9 (0 : Nat) = none :=
  claim_C10_large_code_denied 255 9 0 (by decide) (by decide)

/-! ## Claim C5: unauthenticated requests on guarded resources -/

/-- C5: an unauthenticated request (no claims) reaches guarded handlers
whose permission mask is 0, so a request whose operation the no-claims
Permission Model does not allow yields the denial marker, and
`WithPermissions::build_response` then answers through
`UnauthorizedSeeAS`: 4.01 Unauthorized, Content-Format 19
(application/ace+cbor), and the Authorization Hint payload carrying the
configured AS URI and audience (given the resource-server lock is
available to read them); when the permission test allows the operation,
the request is forwarded to the inner resource handler. -/
theorem claim_C5_unauthenticated_hint (rqh : RequestCreationHints) :
    create_coap_handler none = { identifyPerm := 0, tempPerm := 0, ledsPerm := 0 } ∧
    (∀ (α : Type) (c : Nat) (x : α),
      WithPermissions.extract_request_data 0 c x = none) ∧
    (∀ (δ ε : Type) (innerBuild : δ → Except Unit Message)
        (renderErr : ε → Except Unit Message),
      WithPermissions.build_response (some rqh) innerBuild renderErr none =
        Except.ok { code := code.UNAUTHORIZED,
                    options := [(option.CONTENT_FORMAT, 19)],
                    payload := Payload.hints rqh.asUri rqh.audience }) ∧
    (∀ (α : Type) (p c : Nat) (x : α),
      permissionAllows p c = true →
      WithPermissions.extract_request_data p c x = some x) := by
  refine ⟨rfl, ?_, fun δ ε innerBuild renderErr => rfl, ?_⟩
  · intro α c x
    simp [WithPermissions.extract_request_data, permissionAllows_zero]
  · intro α p c x h
    simp [WithPermissions.extract_request_data, h]

/-- Witness for C5: with mask 1 (GET bit) a GET (code 0.01) is forwarded
to the inner handler. -/
theorem claim_C5_unauthenticated_hint_witness :
    WithPermissions.extract_request_data 1 1 (0 : Nat) = some 0 :=
  (claim_C5_unauthenticated_hint { asUri := "coap://as", audience := "d00" }).2.2.2
    Nat 1 1 0 (by decide)

/-! ## Claim C8: tokens without a usable expiry are rejected -/

/-- C8: a claims set whose expiry is absent, not in whole seconds, or
not representable in the device's `u32` timestamp type is rejected by
the conversion into `ApplicationClaims`; conversely every accepted
conversion carries the expiry extracted from the claims set, so no
context with unbounded lifetime is provisioned. -/
theorem claim_C8_no_expiry_rejected (now : Option Nat) (claims : ClaimsSet) :
    (claims.expOf = none → ApplicationClaims.tryFrom now claims = Except.error ()) ∧
    (∀ ac : ApplicationClaims,
      ApplicationClaims.tryFrom now claims = Except.ok ac →
      claims.expOf = some ac.exp) := by
  constructor
  · intro hexp
    unfold ApplicationClaims.tryFrom
    cases hscan : scanScopeClaims claims.rest none with
    | error e => rfl
    | ok scopeOpt =>
      cases scopeOpt with
      | none => rfl
      | some scope => rw [hexp]
  · intro ac hok
    unfold ApplicationClaims.tryFrom at hok
    cases hscan : scanScopeClaims claims.rest none with
    | error e => rw [hscan] at hok; cases hok
    | ok scopeOpt =>
      rw [hscan] at hok
      cases scopeOpt with
      | none => cases hok
      | some scope =>
        cases hexp : claims.expOf with
        | none => rw [hexp] at hok; cases hok
        | some exp =>
          rw [hexp] at hok
          simp only at hok
          split at hok
          · cases hok
            rfl
          · cases hok

/-- Witness for C8: a claims set with no expiration time at all is
rejected. -/
theorem claim_C8_no_expiry_rejected_witness :
    ApplicationClaims.tryFrom none { expirationTime := none, rest := [] } =
      Except.error () :=
  (claim_C8_no_expiry_rejected none { expirationTime := none, rest := [] }).1 rfl

/-! ## Claim C9: duplicate scope claims are rejected wholesale -/

/-- The byte-string scope claims of a `rest` list, in order: the entries
the conversion's loop actually parses. -/
def scopeBytesEntries : List (CwtKey × CwtValue) → List CborScope
  | [] => []
  | (CwtKey.scopeKey, CwtValue.bytes s) :: rest => s :: scopeBytesEntries rest
  | _ :: rest => scopeBytesEntries rest

/-- Once a scope has been recorded, any further byte-string scope claim
makes the scan fail: either its parse fails, or `scope.replace(..)`
detects the duplicate. -/
theorem scanScopeClaims_some_error (l : List (CwtKey × CwtValue)) (p : Permissions)
    (h : scopeBytesEntries l ≠ []) :
    scanScopeClaims l (some p) = Except.error () := by
  induction l generalizing p with
  | nil => exact absurd rfl h
  | cons hd tl ih =>
    rcases hd with ⟨k, v⟩
    cases k with
    | scopeKey =>
      cases v with
      | bytes s =>
        cases hp : Permissions.parse s <;> simp [scanScopeClaims, hp]
      | otherValue => exact ih p h
    | otherKey t => exact ih p h

/-- A `rest` list with at least two parsable byte-string scope claims
makes the scan fail from the empty accumulator. -/
theorem scanScopeClaims_dup_error (l : List (CwtKey × CwtValue))
    (h2 : 2 ≤ (scopeBytesEntries l).length)
    (hok : ∀ s ∈ scopeBytesEntries l, (Permissions.parse s).isSome = true) :
    scanScopeClaims l none = Except.error () := by
  induction l with
  | nil => simp [scopeBytesEntries] at h2
  | cons hd tl ih =>
    rcases hd with ⟨k, v⟩
    cases k with
    | scopeKey =>
      cases v with
      | bytes s =>
        have hs : (Permissions.parse s).isSome = true := by
          apply hok
          show s ∈ s :: scopeBytesEntries tl
          exact List.mem_cons_self s _
        obtain ⟨ps, hps⟩ := Option.isSome_iff_exists.mp hs
        have hlen : 2 ≤ (s :: scopeBytesEntries tl).length := h2
        have htl : scopeBytesEntries tl ≠ [] := by
          intro he
          rw [he] at hlen
          simp at hlen
        have hstep :
            scanScopeClaims ((CwtKey.scopeKey, CwtValue.bytes s) :: tl) none =
              scanScopeClaims tl (some ps) := by
          simp [scanScopeClaims, hps]
        rw [hstep]
        exact scanScopeClaims_some_error tl ps htl
      | otherValue =>
        exact ih h2 hok
    | otherKey t =>
      exact ih h2 hok

/-- C9: a claims set containing more than one byte-string scope claim is
rejected wholesale by the conversion, even when every individual scope
claim parses correctly — the second occurrence is never allowed to
overwrite the first. -/
theorem claim_C9_duplicate_scope_rejected (now : Option Nat) (claims : ClaimsSet)
    (h2 : 2 ≤ (scopeBytesEntries claims.rest).length)
    (hok : ∀ s ∈ scopeBytesEntries claims.rest, (Permissions.parse s).isSome = true) :
    ApplicationClaims.tryFrom now claims = Except.error () := by
  unfold ApplicationClaims.tryFrom
  rw [scanScopeClaims_dup_error claims.rest h2 hok]

/-- Witness for C9: two identical well-formed scope claims, both parsing
to the empty Permission Model, still reject the whole token. -/
theorem claim_C9_duplicate_scope_rejected_witness :
    ApplicationClaims.tryFrom none
        { expirationTime := some (Timestamp.wholeSeconds 100),
          rest := [(CwtKey.scopeKey, CwtValue.bytes { headerOk := true, items := [] }),
                   (CwtKey.scopeKey, CwtValue.bytes { headerOk := true, items := [] })] } =
      Except.error () :=
  claim_C9_duplicate_scope_rejected none
    { expirationTime := some (Timestamp.wholeSeconds 100),
      rest := [(CwtKey.scopeKey, CwtValue.bytes { headerOk := true, items := [] }),
               (CwtKey.scopeKey, CwtValue.bytes { headerOk := true, items := [] })] }
    (by decide) (by decide)

end CoapAcePoc
